import Mathlib

/-!
Shallow embedding of the S3 bucket-connector layer of the Xetra ETL pipeline
(xetra/common/s3.py, xetra/common/constants.py,
xetra/common/custom_exceptions.py), together with theorems settling the
specification claims about it.

The embedding models:
  - a pandas DataFrame as a header row plus a list of string rows;
  - the S3 bucket as an association list from keys to object bodies,
    carried in an explicit state together with the emitted log events;
  - Python exceptions as an `Except` error channel (`PyErr`);
  - the `S3FileTypes` class of constants.py exactly as written there: it does
    NOT subclass `Enum`, so its class attributes are plain strings and the
    attribute access `.value` performed by `write_df_to_s3` raises
    `AttributeError`.
-/

/-- Python-level error conditions that the embedded code can raise. -/
inductive PyErr where
  /-- AttributeError raised when an attribute is looked up on a plain object
  that does not have it (carries the attribute name). -/
  | attrErr (a : String) : PyErr
  /-- The WrongFormatException of custom_exceptions.py. -/
  | wrongFormatException : PyErr
  /-- KeyError raised by a failing dictionary lookup such as os.environ[k]. -/
  | keyErr (k : String) : PyErr
  /-- The NoSuchKey client error raised by S3 get on an absent key. -/
  | noSuchKey (k : String) : PyErr
  /-- EmptyDataError raised by pandas read_csv on blank input. -/
  | emptyDataErr : PyErr
  /-- Failure to decode or parse an opaque binary body as delimited text. -/
  | decodeErr : PyErr
deriving DecidableEq, Repr

/-- A pandas DataFrame with string cells: named columns and ordered rows.
Rows are lists of cell strings, one per column. -/
structure DataFrame where
  cols : List String
  rows : List (List String)
deriving DecidableEq, Repr

/-- Embeds pandas `DataFrame.empty`: true iff one of the axes has length 0,
i.e. there are no rows or no columns. -/
def DataFrame.empty (df : DataFrame) : Bool :=
  df.rows.isEmpty || df.cols.isEmpty

/-- Embeds `data_frame.to_csv(out_buffer, index=False)` for frames of plain
string cells: the header line then each row, fields joined by commas, every
line terminated by a newline, and no row-index column. -/
def DataFrame.to_csv (df : DataFrame) : String :=
  String.intercalate "," df.cols ++ "\n" ++
    String.join (df.rows.map (fun r => String.intercalate "," r ++ "\n"))

/-- Embeds the `S3FileTypes` class of constants.py as it is written: the class
does not subclass `Enum`, so its class attributes `CSV` and `PARQUET` are
plain Python strings, modelled by this wrapper around their string content. -/
structure PlainStr where
  str : String
deriving DecidableEq, Repr

/-- Python attribute access `.value` on a plain string: a `str` has no
attribute `value` (an Enum member would), so the access raises
AttributeError. -/
def PlainStr.value (_ : PlainStr) : Except PyErr String :=
  .error (.attrErr "value")

/-- Embeds `S3FileTypes.CSV` of constants.py: the plain string value csv. -/
def S3FileTypes.CSV : PlainStr := ⟨"csv"⟩

/-- Embeds `S3FileTypes.PARQUET` of constants.py: the plain string value
parquet. -/
def S3FileTypes.PARQUET : PlainStr := ⟨"parquet"⟩

/-- The informational log events emitted by the connector methods of s3.py. -/
inductive LogEvent where
  /-- Embeds the message `Reading file endpoint/bucket/key` of
  read_csv_to_df. -/
  | readingFile (endpoint bucket key : String) : LogEvent
  /-- Embeds the message `The dataframe is empty! No file will be written!`
  of write_df_to_s3. -/
  | emptyDataFrame : LogEvent
  /-- Embeds the message naming an unsupported file format in
  write_df_to_s3. -/
  | unsupportedFormat (fmt : String) : LogEvent
  /-- Embeds the message `Writing file to endpoint/bucket/key` of the private
  put-object helper. -/
  | writingFile (endpoint bucket key : String) : LogEvent
deriving DecidableEq, Repr

/-- The body of a stored S3 object: either decoded text (what a StringIO
buffer upload produces) or the opaque columnar-binary encoding of a frame
produced by `to_parquet(index=False)`, modelled abstractly by the frame it
encodes. -/
inductive ObjBody where
  | text (s : String) : ObjBody
  | parquetOf (df : DataFrame) : ObjBody
deriving DecidableEq, Repr

/-- The observable state of one S3BucketConnector: the endpoint url and
bucket name it was constructed with, the objects currently stored in the
bound bucket (an association list from key to body), and the log events
emitted so far. -/
structure S3State where
  endpoint_url : String
  bucket_name : String
  objects : List (String × ObjBody)
  log : List LogEvent
deriving DecidableEq, Repr

/-- Append one emitted log event to the state. -/
def S3State.logEvent (st : S3State) (e : LogEvent) : S3State :=
  ⟨st.endpoint_url, st.bucket_name, st.objects, st.log ++ [e]⟩

/-- Store a body at a key, overwriting any object previously stored there
(S3 put replaces the object at the key). -/
def S3State.putBody (st : S3State) (key : String) (b : ObjBody) : S3State :=
  ⟨st.endpoint_url, st.bucket_name,
    st.objects.filter (fun p => p.1 != key) ++ [(key, b)], st.log⟩

/-- Fetch the body stored at a key, if any. -/
def S3State.getBody (st : S3State) (key : String) : Option ObjBody :=
  (st.objects.find? (fun p => p.1 == key)).map Prod.snd

/-- Embeds the private helper `__put_object` of s3.py: log
`Writing file to endpoint/bucket/key`, upload the buffer content as the
object body at the key, return True. -/
def put_object (st : S3State) (b : ObjBody) (key : String) :
    Except PyErr (Option Bool) × S3State :=
  (.ok (some true), (st.logEvent (.writingFile st.endpoint_url st.bucket_name key)).putBody key b)

/-- Embeds `write_df_to_s3` of s3.py exactly as written: the emptiness check
comes first; then the comparison `file_format == S3FileTypes.CSV.value` is
evaluated, whose attribute access `.value` on the plain string
`S3FileTypes.CSV` raises AttributeError (see `PlainStr.value`), so for a
non-empty frame control never reaches a branch body.  The branch bodies
themselves are embedded faithfully for the case the attribute access were to
succeed.  The result value models the Python return value: `none` for
`return None`, `some true` for `return True`. -/
def write_df_to_s3 (st : S3State) (data_frame : DataFrame)
    (key : String) (file_format : String) :
    Except PyErr (Option Bool) × S3State :=
  if data_frame.empty then
    (.ok none, st.logEvent .emptyDataFrame)
  else
    match S3FileTypes.CSV.value with
    | .error e => (.error e, st)
    | .ok v =>
      if file_format == v then
        put_object st (.text data_frame.to_csv) key
      else
        match S3FileTypes.PARQUET.value with
        | .error e => (.error e, st)
        | .ok w =>
          if file_format == w then
            put_object st (.parquetOf data_frame) key
          else
            (.error .wrongFormatException, st.logEvent (.unsupportedFormat file_format))

/-- Embeds `write_df_to_s3` under the behaviour recorded as intended by the
repository itself: the comment in constants.py says `S3FileTypes` is meant to
be a child class of `Enum` (and the unit tests in tests/common/test_s3.py
rely on it), in which case `S3FileTypes.CSV.value` evaluates to the string
csv and `S3FileTypes.PARQUET.value` to parquet.  Identical to
`write_df_to_s3` except that the attribute accesses succeed. -/
def write_df_to_s3_intended (st : S3State) (data_frame : DataFrame)
    (key : String) (file_format : String) :
    Except PyErr (Option Bool) × S3State :=
  if data_frame.empty then
    (.ok none, st.logEvent .emptyDataFrame)
  else if file_format == S3FileTypes.CSV.str then
    put_object st (.text data_frame.to_csv) key
  else if file_format == S3FileTypes.PARQUET.str then
    put_object st (.parquetOf data_frame) key
  else
    (.error .wrongFormatException, st.logEvent (.unsupportedFormat file_format))

/-- Split a character list at every occurrence of a separator character,
keeping empty pieces, as Python string splitting does for a one-character
separator. -/
def splitOnChar (c : Char) : List Char → List (List Char)
  | [] => [[]]
  | x :: xs =>
    match splitOnChar c xs with
    | [] => [[x]]
    | y :: ys => if x == c then [] :: y :: ys else (x :: y) :: ys

/-- Split a string at every occurrence of a separator character. -/
def fieldsOf (sep : Char) (line : String) : List String :=
  (splitOnChar sep line.toList).map (fun cs => String.mk cs)

/-- Embeds `pd.read_csv(data, delimiter=sep)` for text input and the
one-character delimiters the connector uses: split the text into lines, drop
blank lines (pandas skips blank lines by default), take the first line as
the header row and every later line as a data row, splitting each on the
separator; blank input raises EmptyDataError. -/
def pd_read_csv (s : String) (sep : Char) : Except PyErr DataFrame :=
  match (fieldsOf (Char.ofNat 10) s).filter (fun l => l != "") with
  | [] => .error .emptyDataErr
  | header :: rest => .ok ⟨fieldsOf sep header, rest.map (fieldsOf sep)⟩

/-- The fetch-decode-parse step of read_csv_to_df, after the log event: get
the object at the key (S3 raises NoSuchKey if absent), decode its bytes (the
identity on our already-decoded text model; an opaque columnar-binary body
fails to decode as text), and parse the text with pandas read_csv using the
given separator.  The state is returned untouched. -/
def fetch_and_parse (st1 : S3State) (key : String) (sep : Char) :
    Except PyErr DataFrame × S3State :=
  match st1.getBody key with
  | none => (.error (.noSuchKey key), st1)
  | some (.text s) => (pd_read_csv s sep, st1)
  | some (.parquetOf _) => (.error .decodeErr, st1)

/-- Embeds `read_csv_to_df` of s3.py: first log
`Reading file endpoint/bucket/key`, then fetch, decode and parse the object
at the key. -/
def read_csv_to_df (st : S3State) (key : String)
    (encoding : String) (sep : Char) :
    Except PyErr DataFrame × S3State :=
  fetch_and_parse (st.logEvent (.readingFile st.endpoint_url st.bucket_name key)) key sep

/-- Embeds `list_files_in_prefix` of s3.py: the keys of the objects of the
bound bucket whose key starts with the given string, in storage order, with
no change to the state. -/
def list_files_in_prefix (st : S3State) (pfx : String) :
    List String × S3State :=
  ((st.objects.map Prod.fst).filter (fun k => k.startsWith pfx), st)

/-- Embeds the boto3 session object built by the constructor, holding the
resolved credential values. -/
structure Session where
  aws_access_key_id : String
  aws_secret_access_key : String
deriving DecidableEq, Repr

/-- Embeds a constructed S3BucketConnector instance: endpoint url, the
established session, and the bound bucket name. -/
structure S3BucketConnector where
  endpoint_url : String
  session : Session
  bucket : String
deriving DecidableEq, Repr

/-- Embeds the Python subscript `os.environ[k]`: the value of the environment
variable when set, KeyError when unset.  The process environment is passed
explicitly as an association list. -/
def os_environ_get (env : List (String × String)) (k : String) :
    Except PyErr String :=
  match env.find? (fun p => p.1 == k) with
  | none => .error (.keyErr k)
  | some p => .ok p.2

/-- Embeds the constructor `S3BucketConnector.__init__` of s3.py: look up the
two credential environment variables named by access_key and secret_key (the
subscripts raise KeyError when unset, access key first), build the session
from the resolved values, and bind the endpoint url and bucket name. -/
def S3BucketConnector.init (env : List (String × String))
    (access_key secret_key endpoint_url bucket : String) :
    Except PyErr S3BucketConnector :=
  match os_environ_get env access_key with
  | .error e => .error e
  | .ok ak =>
    match os_environ_get env secret_key with
    | .error e => .error e
    | .ok sk => .ok ⟨endpoint_url, ⟨ak, sk⟩, bucket⟩

/-- The concrete test fixture of tests/common/test_s3.py: the mocked
endpoint, the test bucket, no stored objects, no log output yet. -/
def stTest : S3State :=
  ⟨"https://s3.eu-central-1.amazonaws.com", "test-bucket", [], []⟩

/-- The concrete two-row frame used by the write tests of
tests/common/test_s3.py: columns col1, col2 and rows A,B and C,D. -/
def dfAB : DataFrame :=
  ⟨["col1", "col2"], [["A", "B"], ["C", "D"]]⟩

/-- The concrete store of the read test of tests/common/test_s3.py: one text
object test.csv with body col1,col2 newline va1,va2. -/
def stRead : S3State :=
  ⟨"https://s3.eu-central-1.amazonaws.com", "test-bucket",
    [("test.csv", .text "col1,col2\nva1,va2")], []⟩

/-- Helper: a failed environment lookup returns KeyError for that name. -/
theorem os_environ_get_none (env : List (String × String)) (k : String)
    (h : env.find? (fun p => p.1 == k) = none) :
    os_environ_get env k = .error (.keyErr k) := by
  unfold os_environ_get
  rw [h]

/-- C1: for every non-empty DataFrame and every file_format string,
write_df_to_s3 raises AttributeError while evaluating S3FileTypes.CSV.value
(S3FileTypes does not subclass Enum, so S3FileTypes.CSV is a plain str with
no value attribute); the state is unchanged, so no object is uploaded, no
log event is emitted, and WrongFormatException is never reached. -/
theorem write_df_to_s3_raises_attrErr (st : S3State) (df : DataFrame)
    (key fmt : String) (h : df.empty = false) :
    (write_df_to_s3 st df key fmt).1 = .error (.attrErr "value") ∧
    (write_df_to_s3 st df key fmt).2 = st := by
  simp [write_df_to_s3, h, S3FileTypes.CSV, PlainStr.value]

/-- Witness for C1 at the concrete frame and inputs of the csv write test. -/
theorem write_df_to_s3_raises_attrErr_witness :
    dfAB.empty = false ∧
    ((write_df_to_s3 stTest dfAB "test.csv" "csv").1 = .error (.attrErr "value") ∧
      (write_df_to_s3 stTest dfAB "test.csv" "csv").2 = stTest) :=
  ⟨rfl, write_df_to_s3_raises_attrErr stTest dfAB "test.csv" "csv" rfl⟩

/-- C2 (code bug): at the inputs of the csv write unit test, write_df_to_s3
as written raises AttributeError and stores nothing, while under the Enum
subclassing that constants.py's comment and the unit tests record as
intended it returns True and stores the comma-separated text with header row
and no index column at the key. -/
theorem write_df_to_s3_csv_code_bug :
    (write_df_to_s3 stTest dfAB "test.csv" "csv").1 = .error (.attrErr "value") ∧
    (write_df_to_s3 stTest dfAB "test.csv" "csv").2.objects = [] ∧
    (write_df_to_s3_intended stTest dfAB "test.csv" "csv").1 = .ok (some true) ∧
    (write_df_to_s3_intended stTest dfAB "test.csv" "csv").2.getBody "test.csv"
      = some (.text "col1,col2\nA,B\nC,D\n") :=
  ⟨rfl, rfl, rfl, rfl⟩

/-- C3 (code bug): at the inputs of the wrong-format unit test,
write_df_to_s3 as written raises AttributeError before any log event is
emitted, while under the intended Enum subclassing it emits exactly one
unsupported-format log event and then raises WrongFormatException. -/
theorem write_df_to_s3_wrong_format_code_bug :
    (write_df_to_s3 stTest dfAB "test.parquet" "wrong_format").1
      = .error (.attrErr "value") ∧
    (write_df_to_s3 stTest dfAB "test.parquet" "wrong_format").2.log = [] ∧
    (write_df_to_s3_intended stTest dfAB "test.parquet" "wrong_format").1
      = .error .wrongFormatException ∧
    (write_df_to_s3_intended stTest dfAB "test.parquet" "wrong_format").2.log
      = [.unsupportedFormat "wrong_format"] :=
  ⟨rfl, rfl, rfl, rfl⟩

/-- C4: for every empty DataFrame and every key and file_format,
write_df_to_s3 logs exactly one informational no-op event, leaves the stored
objects untouched, and returns None, which is neither an error nor True. -/
theorem write_df_to_s3_empty_noop (st : S3State) (df : DataFrame)
    (key fmt : String) (h : df.empty = true) :
    (write_df_to_s3 st df key fmt).1 = .ok none ∧
    (write_df_to_s3 st df key fmt).2.objects = st.objects ∧
    (write_df_to_s3 st df key fmt).2.log = st.log ++ [.emptyDataFrame] ∧
    (write_df_to_s3 st df key fmt).1 ≠ .ok (some true) := by
  simp [write_df_to_s3, h, S3State.logEvent]

/-- Witness for C4 at the empty frame of the empty-write unit test. -/
theorem write_df_to_s3_empty_noop_witness :
    DataFrame.empty ⟨[], []⟩ = true ∧
    ((write_df_to_s3 stTest ⟨[], []⟩ "key.csv" "csv").1 = .ok none ∧
      (write_df_to_s3 stTest ⟨[], []⟩ "key.csv" "csv").2.objects = stTest.objects ∧
      (write_df_to_s3 stTest ⟨[], []⟩ "key.csv" "csv").2.log
        = stTest.log ++ [.emptyDataFrame] ∧
      (write_df_to_s3 stTest ⟨[], []⟩ "key.csv" "csv").1 ≠ .ok (some true)) :=
  ⟨rfl, write_df_to_s3_empty_noop stTest ⟨[], []⟩ "key.csv" "csv" rfl⟩

/-- C5 (code bug): at the concrete string-celled frame of the write tests,
write_df_to_s3 as written raises AttributeError and stores no object, so no
round trip takes place; under the intended Enum subclassing, writing the
frame as delimited text and reading the stored object back with the matching
separator yields the frame again, header names preserved verbatim. -/
theorem write_read_roundtrip_code_bug :
    (write_df_to_s3 stTest dfAB "rt.csv" "csv").1 = .error (.attrErr "value") ∧
    (write_df_to_s3 stTest dfAB "rt.csv" "csv").2.objects = stTest.objects ∧
    (read_csv_to_df (write_df_to_s3_intended stTest dfAB "rt.csv" "csv").2
        "rt.csv" "utf-8" ',').1 = .ok dfAB :=
  ⟨rfl, rfl, rfl⟩

/-- C6: for every stored state and every string, the listing returns exactly
the keys of the stored objects that start with that string (membership
equivalence, hence set equality; an empty list rather than an error when
nothing matches) and leaves the state unchanged. -/
theorem list_files_in_prefix_exact (st : S3State) (pfx : String) :
    ( list_files_in_prefix st pfx).2 = st ∧
    ∀ k, k ∈ ( list_files_in_prefix st pfx).1 ↔
      ((∃ b, (k, b) ∈ st.objects) ∧ k.startsWith pfx = true) := by
  refine ⟨rfl, fun k => ?_⟩
  simp only [ list_files_in_prefix, List.mem_filter, List.mem_map]
  constructor
  · rintro ⟨⟨⟨a, b⟩, hmem, hfst⟩, hpre⟩
    subst hfst
    exact ⟨⟨b, hmem⟩, hpre⟩
  · rintro ⟨⟨b, hmem⟩, hpre⟩
    exact ⟨⟨⟨k, b⟩, hmem, rfl⟩, hpre⟩

/-- C7: reading the stored object test.csv with body col1,col2 va1,va2
returns the one-row table whose first line supplies the header names col1
and col2 and whose col1 entry is va1 and col2 entry is va2. -/
theorem read_csv_to_df_concrete :
    (read_csv_to_df stRead "test.csv" "utf-8" ',').1
      = .ok ⟨["col1", "col2"], [["va1", "va2"]]⟩ :=
  rfl

/-- C8: on every call, read_csv_to_df appends exactly one informational
reading-file log event carrying the endpoint, bucket and key before the
fetch of the object is attempted, so the event is present in the final log
whatever the outcome of the fetch, decode, or parse. -/
theorem read_csv_to_df_logs_before_fetch (st : S3State)
    (key enc : String) (sep : Char) :
    (read_csv_to_df st key enc sep).2.log
      = st.log ++ [.readingFile st.endpoint_url st.bucket_name key] := by
  unfold read_csv_to_df fetch_and_parse
  split <;> simp [S3State.logEvent]

/-- C9: when the access-key or the secret-key environment variable named in
the constructor call is unset, construction fails with the credential-lookup
error condition (the AuthenticationError-class condition of the spec,
realized as the KeyError of the failing environment subscript) and no
connector with its session is produced. -/
theorem init_missing_env_fails (env : List (String × String))
    (a s e b : String)
    (h : env.find? (fun p => p.1 == a) = none ∨
      env.find? (fun p => p.1 == s) = none) :
    (∃ k, S3BucketConnector.init env a s e b = .error (.keyErr k)) ∧
    ∀ c, S3BucketConnector.init env a s e b ≠ .ok c := by
  have hfail : ∃ k, S3BucketConnector.init env a s e b = .error (.keyErr k) := by
    rcases h with h | h
    · exact ⟨a, by unfold S3BucketConnector.init; rw [os_environ_get_none env a h]⟩
    · cases hfa : env.find? (fun p => p.1 == a) with
      | none =>
        exact ⟨a, by unfold S3BucketConnector.init; rw [os_environ_get_none env a hfa]⟩
      | some p =>
        refine ⟨s, ?_⟩
        unfold S3BucketConnector.init os_environ_get
        rw [hfa, h]
  refine ⟨hfail, fun c hc => ?_⟩
  rcases hfail with ⟨k, hk⟩
  rw [hk] at hc
  exact Except.noConfusion hc

/-- Witness for C9: an empty process environment, with the constructor
arguments of the unit tests. -/
theorem init_missing_env_fails_witness :
    (([] : List (String × String)).find?
        (fun p => p.1 == "AWS_ACCESS_KEY_ID") = none ∨
      ([] : List (String × String)).find?
        (fun p => p.1 == "AWS_SECRET_ACCESS_KEY") = none) ∧
    ((∃ k, S3BucketConnector.init [] "AWS_ACCESS_KEY_ID" "AWS_SECRET_ACCESS_KEY"
        "https://s3.eu-central-1.amazonaws.com" "test-bucket"
          = .error (.keyErr k)) ∧
      ∀ c, S3BucketConnector.init [] "AWS_ACCESS_KEY_ID" "AWS_SECRET_ACCESS_KEY"
        "https://s3.eu-central-1.amazonaws.com" "test-bucket" ≠ .ok c) :=
  ⟨Or.inl rfl,
    init_missing_env_fails [] "AWS_ACCESS_KEY_ID" "AWS_SECRET_ACCESS_KEY"
      "https://s3.eu-central-1.amazonaws.com" "test-bucket" (Or.inl rfl)⟩

/-- C10: the emptiness check precedes the format dispatch: for every empty
DataFrame and every file_format string, including unsupported or malformed
ones, write_df_to_s3 returns None, raises no error, and touches no stored
object. -/
theorem write_df_to_s3_empty_before_dispatch (st : S3State) (df : DataFrame)
    (key fmt : String) (h : df.empty = true) :
    (write_df_to_s3 st df key fmt).1 = .ok none ∧
    (∀ e, (write_df_to_s3 st df key fmt).1 ≠ .error e) ∧
    (write_df_to_s3 st df key fmt).2.objects = st.objects := by
  simp [write_df_to_s3, h, S3State.logEvent]

/-- Witness for C10: a zero-row frame that still has a column, written with
a malformed format string. -/
theorem write_df_to_s3_empty_before_dispatch_witness :
    DataFrame.empty ⟨["col1"], []⟩ = true ∧
    ((write_df_to_s3 stTest ⟨["col1"], []⟩ "k" "no-such-format###").1 = .ok none ∧
      (∀ e, (write_df_to_s3 stTest ⟨["col1"], []⟩ "k" "no-such-format###").1
        ≠ .error e) ∧
      (write_df_to_s3 stTest ⟨["col1"], []⟩ "k" "no-such-format###").2.objects
        = stTest.objects) :=
  ⟨rfl, write_df_to_s3_empty_before_dispatch stTest ⟨["col1"], []⟩ "k"
    "no-such-format###" rfl⟩
